import Mathlib

/-!
Shallow embedding of `simphony/core/base.py` (the model registry, the
`ComponentModel` class with its uniqueness descriptor, and
`ComponentInstance`), together with theorems settling the spec claims.

Python mutable state is passed explicitly.  The module holds three pieces of
mutable state that the claims touch:
  * the module-level dict `models` (name → model object),
  * the class-level set `UniqueModelName._names`,
  * the single `UniqueModelName` descriptor object's own `name` attribute
    (the descriptor is a class attribute of `ComponentModel`, so ONE
    descriptor object is shared by every model instance; `__set__` stores the
    assigned value on the descriptor itself, and `__get__` returns it,
    ignoring the instance it was invoked on — faithfully mirrored below).
These are bundled in `CoreState`.  The s-parameter payload is an arbitrary
type `α` (the code never inspects it).  A Python exception is an
`Except SimError` result; statements that in Python mutate state before
raising return the mutated state alongside the error.
-/

set_option autoImplicit false

/-- Exception kinds raised by the code under `src/simphony/core/base.py`.
`DuplicateModelError(arg)` carries the offending name (read through the
descriptor in `__copy__`/`__deepcopy__`, hence an `Option`). -/
inductive SimError where
  | duplicateModelError : Option String → SimError
  | valueError : SimError
  | notImplementedError : SimError
  | attributeError : SimError
  deriving DecidableEq

/-- Keyword arguments (`**kwargs` / the instance `extras` dict). The code
only forwards them, so integer values suffice. -/
abbrev Extras := List (String × Int)

/-- A `ComponentModel` object's own instance dict.  `component_type` is NOT
here: in the source it is a class-level `UniqueModelName` data descriptor, so
reads and writes go to the shared descriptor, not to the instance.
`s_parameters` is set only in the `cachable` branch of `__init__`.
`getOverride` models a post-construction reassignment of the
`get_s_parameters` attribute on the object (none when never reassigned). -/
structure ModelObj (α : Type) where
  s_parameters : Option α
  cachable : Bool
  getOverride : Option (Extras → Except SimError α)

/-- The mutable module/class state of `simphony.core.base`. -/
structure CoreState (α : Type) where
  /-- module-level `models` dict, most recent binding first -/
  models : List (String × ModelObj α)
  /-- `UniqueModelName._names` -/
  names : List String
  /-- the shared descriptor object's `self.name` (initially `None`) -/
  descName : Option String

/-- Python dict read: the most recent binding for the key. -/
def dictGet {β : Type} : List (String × β) → String → Option β
  | [], _ => none
  | p :: rest, k => if p.1 = k then some p.2 else dictGet rest k

/-- The state at interpreter start: empty dict, empty name set, descriptor
constructed with `name=None`. -/
def initState (α : Type) : CoreState α := { models := [], names := [], descName := none }

/-- `clear_models()`.  The body `models = \x7b\x7d` binds a fresh LOCAL variable
(there is no `global models` declaration), so the module-level dict is left
untouched; only `UniqueModelName._names` is actually reset.  The embedding
reproduces that behaviour. -/
def clear_models {α : Type} (st : CoreState α) : CoreState α :=
  { st with names := [] }

/-- `UniqueModelName.__set__`: raises `DuplicateModelError(value)` when the
value is already reserved; otherwise adds it to `_names` and stores it as the
descriptor's `name`.  Returns the new `(_names, descriptor name)` pair. -/
def UniqueModelName.set (names : List String) (value : String) :
    Except SimError (List String × Option String) :=
  if value ∈ names then Except.error (SimError.duplicateModelError (some value))
  else Except.ok (value :: names, some value)

/-- `UniqueModelName.__get__`: returns the descriptor's own `name`, ignoring
the instance the attribute was read from. -/
def ComponentModel.component_type {α : Type} (st : CoreState α) (_obj : ModelObj α) :
    Option String :=
  st.descName

/-- `ComponentModel.__init__(component_type, s_parameters=None, cachable=False)`.
Statement order follows the source: the descriptor assignment
`self.component_type = component_type` runs first (raising
`DuplicateModelError` before any mutation if the name is taken, otherwise
reserving the name and setting the descriptor); then, if `cachable`,
`ValueError` is raised when `s_parameters is None` — at that point the name
is already reserved but `models` was not yet written; otherwise the object
is completed and `models[component_type] = self` executes. -/
def ComponentModel.init {α : Type} (st : CoreState α) (component_type : String)
    (s_parameters : Option α) (cachable : Bool) :
    CoreState α × Except SimError (ModelObj α) :=
  match UniqueModelName.set st.names component_type with
  | Except.error e => (st, Except.error e)
  | Except.ok r =>
    let st1 : CoreState α := { models := st.models, names := r.1, descName := r.2 }
    if cachable then
      match s_parameters with
      | none => (st1, Except.error SimError.valueError)
      | some sp =>
        let m : ModelObj α := { s_parameters := some sp, cachable := true, getOverride := none }
        ({ st1 with models := (component_type, m) :: st1.models }, Except.ok m)
    else
      let m : ModelObj α := { s_parameters := none, cachable := false, getOverride := none }
      ({ st1 with models := (component_type, m) :: st1.models }, Except.ok m)

/-- The class method `ComponentModel.get_s_parameters(**kwargs)`: returns the
stored `self.s_parameters` when `self.cachable`, else raises
`NotImplementedError`.  (Reading a never-set `s_parameters` attribute would
raise `AttributeError`; unreachable for objects built by `__init__`.) -/
def ComponentModel.get_s_parameters {α : Type} (m : ModelObj α) (kwargs : Extras) :
    Except SimError α :=
  if m.cachable then
    match m.s_parameters with
    | some sp => Except.ok sp
    | none => Except.error SimError.attributeError
  else
    Except.error SimError.notImplementedError

/-- Python attribute dispatch for `obj.get_s_parameters(...)`: an instance
attribute installed by a post-construction reassignment shadows the class
method; otherwise the class method runs. -/
def ModelObj.call_get_s_parameters {α : Type} (m : ModelObj α) (kwargs : Extras) :
    Except SimError α :=
  match m.getOverride with
  | some f => f kwargs
  | none => ComponentModel.get_s_parameters m kwargs

/-- `ComponentModel.__eq__`: compares `component_type` (both read through the
shared descriptor) and `cachable`. -/
def ComponentModel.eq {α : Type} (st : CoreState α) (m1 m2 : ModelObj α) : Bool :=
  decide (ComponentModel.component_type st m1 = ComponentModel.component_type st m2)
    && (m1.cachable == m2.cachable)

/-- `ComponentModel.__copy__`: unconditionally raises
`DuplicateModelError(self.component_type)`. -/
def ComponentModel.copy {α : Type} (st : CoreState α) (m : ModelObj α) :
    Except SimError (ModelObj α) :=
  Except.error (SimError.duplicateModelError (ComponentModel.component_type st m))

/-- `ComponentModel.__deepcopy__(memo)`: unconditionally raises
`DuplicateModelError(self.component_type)`. -/
def ComponentModel.deepcopy {α : Type} (st : CoreState α) (m : ModelObj α)
    (memo : List Int) : Except SimError (ModelObj α) :=
  Except.error (SimError.duplicateModelError (ComponentModel.component_type st m))

/-- A `ComponentInstance` object's fields after `__init__`. -/
structure ComponentInstance (α : Type) where
  model : Option (ModelObj α)
  nets : List Int
  lay_x : Int
  lay_y : Int
  extras : Extras

/-- `ComponentInstance.__init__(model=None, nets=None, lay_x=0, lay_y=0,
extras=None)`, with the `None`-to-default normalisation of `nets` and
`extras`. -/
def ComponentInstance.init {α : Type} (model : Option (ModelObj α))
    (nets : Option (List Int)) (lay_x lay_y : Int) (extras : Option Extras) :
    ComponentInstance α :=
  { model := model, nets := nets.getD [], lay_x := lay_x, lay_y := lay_y,
    extras := extras.getD [] }

/-- `ComponentInstance.get_s_parameters()`: evaluates
`self.model.get_s_parameters(**self.extras)`.  When `self.model` is `None`,
the attribute access on `None` raises (`AttributeError`); otherwise the
model's retrieval runs and its outcome is the instance call's outcome. -/
def ComponentInstance.get_s_parameters {α : Type} (inst : ComponentInstance α) :
    Except SimError α :=
  match inst.model with
  | none => Except.error SimError.attributeError
  | some m => ModelObj.call_get_s_parameters m inst.extras

/-- Operations a client can interleave on the registry: construction attempts
and the process-wide reset. -/
inductive Op (α : Type) where
  | construct : String → Option α → Bool → Op α
  | clear : Op α
  deriving DecidableEq

/-- Run one operation for its state effect (a failed construction still
yields the state the failure left behind). -/
def runOp {α : Type} (st : CoreState α) : Op α → CoreState α
  | Op.construct n sp c => (ComponentModel.init st n sp c).1
  | Op.clear => clear_models st

/-- Run a sequence of operations. -/
def runOps {α : Type} (st : CoreState α) (ops : List (Op α)) : CoreState α :=
  ops.foldl runOp st

theorem dictGet_cons {β : Type} (p : String × β) (rest : List (String × β)) (k : String) :
    dictGet (p :: rest) k = if p.1 = k then some p.2 else dictGet rest k := rfl

/-- Once a name is reserved and mapped to a model, any sequence of further
construction attempts (no reset) keeps the reservation and the mapping
entry. -/
theorem registered_preserved {α : Type} (name : String) (m : ModelObj α) :
    ∀ (ops : List (Op α)) (st : CoreState α),
      (∀ op ∈ ops, op ≠ Op.clear) →
      name ∈ st.names → dictGet st.models name = some m →
      name ∈ (runOps st ops).names ∧ dictGet (runOps st ops).models name = some m := by
  intro ops
  induction ops with
  | nil => intro st _ h1 h2; exact ⟨h1, h2⟩
  | cons op rest ih =>
    intro st hops h1 h2
    have hop : op ≠ Op.clear := hops op (List.mem_cons_self op rest)
    have hrest : ∀ o ∈ rest, o ≠ Op.clear := fun o ho => hops o (List.mem_cons_of_mem op ho)
    match op with
    | Op.clear => exact absurd rfl hop
    | Op.construct n sp c =>
      have hstep : name ∈ (runOp st (Op.construct n sp c)).names ∧
          dictGet (runOp st (Op.construct n sp c)).models name = some m := by
        by_cases hn : n ∈ st.names
        · simp only [runOp, ComponentModel.init, UniqueModelName.set, if_pos hn]
          exact ⟨h1, h2⟩
        · have hne : n ≠ name := fun h => hn (h ▸ h1)
          simp only [runOp, ComponentModel.init, UniqueModelName.set, if_neg hn]
          cases c with
          | false =>
            refine ⟨List.mem_cons_of_mem n h1, ?_⟩
            simp only [dictGet, if_neg hne]
            exact h2
          | true =>
            cases sp with
            | none => exact ⟨List.mem_cons_of_mem n h1, h2⟩
            | some v =>
              refine ⟨List.mem_cons_of_mem n h1, ?_⟩
              simp only [dictGet, if_neg hne]
              exact h2
      have := ih (runOp st (Op.construct n sp c)) hrest hstep.1 hstep.2
      simpa [runOps, List.foldl_cons] using this

def stA : CoreState Nat := (ComponentModel.init (initState Nat) "a" none false).1

def mA : ModelObj Nat := { s_parameters := some 5, cachable := true, getOverride := none }

def mB : ModelObj Nat := { s_parameters := some 7, cachable := true, getOverride := none }

def stAB : CoreState Nat :=
  (ComponentModel.init (ComponentModel.init (initState Nat) "a" (some 5) true).1 "b" (some 7) true).1

def stA5 : CoreState Nat := (ComponentModel.init (initState Nat) "a" (some 5) true).1

def stFailA : CoreState Nat := (ComponentModel.init (initState Nat) "a" none true).1

/-- A successful construction leaves the new name reserved and the new model
reachable under its name in the dict. -/
theorem init_ok_registered {α : Type} {st st1 : CoreState α} {name : String}
    {sp : Option α} {c : Bool} {m : ModelObj α}
    (h : ComponentModel.init st name sp c = (st1, Except.ok m)) :
    name ∈ st1.names ∧ dictGet st1.models name = some m := by
  by_cases hn : name ∈ st.names
  · exfalso
    have hset : UniqueModelName.set st.names name
        = Except.error (SimError.duplicateModelError (some name)) := by
      unfold UniqueModelName.set; rw [if_pos hn]
    simp only [ComponentModel.init, hset] at h
    exact absurd (congrArg Prod.snd h) (by simp)
  · have hset : UniqueModelName.set st.names name
        = Except.ok (name :: st.names, some name) := by
      unfold UniqueModelName.set; rw [if_neg hn]
    simp only [ComponentModel.init, hset] at h
    cases c with
    | true =>
      cases sp with
      | none => simp [Prod.ext_iff] at h
      | some v =>
        simp only [if_true, Prod.ext_iff, Except.ok.injEq] at h
        obtain ⟨hst, hm⟩ := h
        rw [← hst, ← hm]
        exact ⟨List.mem_cons_self _ _, by simp [dictGet]⟩
    | false =>
      simp only [Bool.false_eq_true, if_false, Prod.ext_iff, Except.ok.injEq] at h
      obtain ⟨hst, hm⟩ := h
      rw [← hst, ← hm]
      exact ⟨List.mem_cons_self _ _, by simp [dictGet]⟩

/-- C1: if a construction attempt with name `name` succeeds (yielding model
`m`), then after any sequence of further construction attempts (the
process-wide reset excluded: the spec scopes uniqueness to "until an
explicit reset/clear operation runs"), a second construction attempt with
the same name fails with `DuplicateModelError`, leaves the whole registry
state (name map, reserved-name set, descriptor) exactly unchanged, and the
mapping still holds the first model under that name. -/
theorem claim_C1 {α : Type} (st st1 : CoreState α) (name : String)
    (sp1 sp2 : Option α) (c1 c2 : Bool) (ops : List (Op α)) (m : ModelObj α)
    (hfirst : ComponentModel.init st name sp1 c1 = (st1, Except.ok m))
    (hops : ∀ op ∈ ops, op ≠ Op.clear) :
    ComponentModel.init (runOps st1 ops) name sp2 c2
      = (runOps st1 ops, Except.error (SimError.duplicateModelError (some name)))
    ∧ dictGet (runOps st1 ops).models name = some m := by
  have hbase := init_ok_registered hfirst
  have hinv := registered_preserved name m ops st1 hops hbase.1 hbase.2
  refine ⟨?_, hinv.2⟩
  have hset : UniqueModelName.set (runOps st1 ops).names name
      = Except.error (SimError.duplicateModelError (some name)) := by
    unfold UniqueModelName.set; rw [if_pos hinv.1]
  simp only [ComponentModel.init, hset]

/-- C1 witness: model "a" registered in the empty state, model "b"
constructed in between, then a second attempt at "a" fails and changes
nothing. -/
theorem claim_C1_witness :
    ComponentModel.init (runOps stA [Op.construct "b" (none : Option Nat) false]) "a" (some 5) true
      = (runOps stA [Op.construct "b" (none : Option Nat) false],
         Except.error (SimError.duplicateModelError (some "a")))
    ∧ dictGet (runOps stA [Op.construct "b" (none : Option Nat) false]).models "a"
      = some { s_parameters := none, cachable := false, getOverride := none } :=
  claim_C1 (initState Nat) stA "a" none (some 5) false true
    [Op.construct "b" none false]
    { s_parameters := none, cachable := false, getOverride := none }
    rfl (by decide)

/-- C2 evidence (code bug): construct "a" (cachable, s-parameters 5) and
then "b" (cachable, s-parameters 7).  The model registered under "a" is
`mA`, yet reading its `component_type` afterwards yields "b": the shared
descriptor returns the last-assigned name for every model, so a model's
identity is NOT immutably its construction name. -/
theorem claim_C2_codebug :
    dictGet stAB.models "a" = some mA
    ∧ ComponentModel.component_type stAB mA = some "b"
    ∧ ("a" : String) ≠ "b" :=
  ⟨rfl, rfl, by decide⟩

/-- C3 counterexample: constructing "a" with `cachable=true` and absent
s-parameters raises `ValueError`, but the reserved-name set has already
grown from `[]` to `["a"]`, and the promised retry with the same name and
valid data fails with `DuplicateModelError` instead of succeeding. -/
theorem claim_C3_counterexample :
    (ComponentModel.init (initState Nat) "a" none true).2 = Except.error SimError.valueError
    ∧ (initState Nat).names = []
    ∧ stFailA.names = ["a"]
    ∧ (ComponentModel.init stFailA "a" (some 5) true).2
        = Except.error (SimError.duplicateModelError (some "a")) :=
  ⟨rfl, rfl, rfl, rfl⟩

/-- C3 amended: construction with `cachable=true` and `s_parameters=None`
fails with the invalid-configuration error (`ValueError`) and leaves the
name→model mapping untouched, but only AFTER the name has been added to the
reserved-name set (and the descriptor identity set); consequently every
subsequent construction attempt with the same name — whatever its data —
fails with `DuplicateModelError` rather than succeeding. -/
theorem claim_C3_amended {α : Type} (st : CoreState α) (name : String)
    (h : name ∉ st.names) :
    ComponentModel.init st name none true
      = ({ models := st.models, names := name :: st.names, descName := some name },
         Except.error SimError.valueError)
    ∧ ∀ (sp : Option α) (c : Bool),
        (ComponentModel.init
            { models := st.models, names := name :: st.names, descName := some name }
            name sp c).2
          = Except.error (SimError.duplicateModelError (some name)) := by
  have hset : UniqueModelName.set st.names name
      = Except.ok (name :: st.names, some name) := by
    unfold UniqueModelName.set; rw [if_neg h]
  constructor
  · simp only [ComponentModel.init, hset, if_true]
  · intro sp c
    have hmem : name ∈ name :: st.names := List.mem_cons_self _ _
    have hset2 : UniqueModelName.set (name :: st.names) name
        = Except.error (SimError.duplicateModelError (some name)) := by
      unfold UniqueModelName.set; rw [if_pos hmem]
    simp only [ComponentModel.init, hset2]

/-- C3 amended, witness at the empty state with name "a". -/
theorem claim_C3_amended_witness :
    ComponentModel.init (initState Nat) "a" none true
      = ({ models := [], names := ["a"], descName := some "a" },
         Except.error SimError.valueError)
    ∧ (ComponentModel.init
          { models := [], names := ["a"], descName := some "a" } "a" (some 5) true).2
        = Except.error (SimError.duplicateModelError (some "a")) :=
  ⟨(claim_C3_amended (initState Nat) "a" (by decide)).1,
   (claim_C3_amended (initState Nat) "a" (by decide)).2 (some 5) true⟩

/-- C4 evidence (code bug): after registering the cachable model "a" and
calling `clear_models`, the reserved-name set is empty but the name→model
mapping still holds the entry for "a" — the function's `models = \x7b\x7d`
rebinds a local, not the module dict, contradicting its own docstring
"Clears all models loaded in program memory". -/
theorem claim_C4_codebug :
    (clear_models stA5).names = []
    ∧ dictGet (clear_models stA5).models "a" = some mA
    ∧ (clear_models stA5).models ≠ [] :=
  ⟨rfl, rfl, List.cons_ne_nil _ _⟩

/-- C5: a model constructed with `cachable=true` and s-parameter payload
`sp` stores exactly `sp`, and `get_s_parameters` returns exactly `sp` for
every combination of keyword arguments (including none): the extra
parameters have no effect. -/
theorem claim_C5 {α : Type} (st : CoreState α) (name : String) (sp : α)
    (kwargs : Extras) (h : name ∉ st.names) :
    (ComponentModel.init st name (some sp) true).2
      = Except.ok { s_parameters := some sp, cachable := true, getOverride := none }
    ∧ ModelObj.call_get_s_parameters
        ({ s_parameters := some sp, cachable := true, getOverride := none } : ModelObj α)
        kwargs
      = Except.ok sp := by
  have hset : UniqueModelName.set st.names name
      = Except.ok (name :: st.names, some name) := by
    unfold UniqueModelName.set; rw [if_neg h]
  exact ⟨by simp only [ComponentModel.init, hset, if_true], rfl⟩

/-- C5 witness: cachable model "rr" with payload 7; retrieval with and
without extra keyword arguments returns 7. -/
theorem claim_C5_witness :
    ((ComponentModel.init (initState Nat) "rr" (some 7) true).2
        = Except.ok { s_parameters := some 7, cachable := true, getOverride := none }
      ∧ ModelObj.call_get_s_parameters
          ({ s_parameters := some 7, cachable := true, getOverride := none } : ModelObj Nat)
          [("width", 3)]
        = Except.ok 7)
    ∧ ModelObj.call_get_s_parameters
        ({ s_parameters := some 7, cachable := true, getOverride := none } : ModelObj Nat) []
      = Except.ok 7 :=
  ⟨claim_C5 (initState Nat) "rr" 7 [("width", 3)] (by decide),
   (claim_C5 (initState Nat) "rr" 7 [] (by decide)).2⟩

/-- C6: every copy attempt on any model in any state — shallow
(`__copy__`) or deep (`__deepcopy__`) — fails with `DuplicateModelError`;
no copy ever succeeds, including a first copy of a never-copied model. -/
theorem claim_C6 {α : Type} (st : CoreState α) (m : ModelObj α) (memo : List Int) :
    ComponentModel.copy st m
      = Except.error (SimError.duplicateModelError (ComponentModel.component_type st m))
    ∧ ComponentModel.deepcopy st m memo
      = Except.error (SimError.duplicateModelError (ComponentModel.component_type st m)) :=
  ⟨rfl, rfl⟩

/-- C7: a model constructed with `cachable=false` has no custom computation
attached (`getOverride = none`), and every `get_s_parameters` call on it,
with any keyword arguments, fails with `NotImplementedError`. -/
theorem claim_C7 {α : Type} (st : CoreState α) (name : String) (sp : Option α)
    (kwargs : Extras) (h : name ∉ st.names) :
    (ComponentModel.init st name sp false).2
      = Except.ok { s_parameters := none, cachable := false, getOverride := none }
    ∧ ModelObj.getOverride
        ({ s_parameters := none, cachable := false, getOverride := none } : ModelObj α) = none
    ∧ ModelObj.call_get_s_parameters
        ({ s_parameters := none, cachable := false, getOverride := none } : ModelObj α) kwargs
      = Except.error SimError.notImplementedError := by
  have hset : UniqueModelName.set st.names name
      = Except.ok (name :: st.names, some name) := by
    unfold UniqueModelName.set; rw [if_neg h]
  refine ⟨?_, rfl, rfl⟩
  simp only [ComponentModel.init, hset, Bool.false_eq_true, if_false]

/-- C7 witness: non-cachable model "wg" without attached computation;
retrieval with keyword arguments raises `NotImplementedError`. -/
theorem claim_C7_witness :
    (ComponentModel.init (initState Nat) "wg" none false).2
      = Except.ok { s_parameters := none, cachable := false, getOverride := none }
    ∧ ModelObj.getOverride
        ({ s_parameters := none, cachable := false, getOverride := none } : ModelObj Nat) = none
    ∧ ModelObj.call_get_s_parameters
        ({ s_parameters := none, cachable := false, getOverride := none } : ModelObj Nat)
        [("length", 10)]
      = Except.error SimError.notImplementedError :=
  claim_C7 (initState Nat) "wg" none [("length", 10)] (by decide)

/-- C8: an instance's `get_s_parameters` fails with the null-reference
error (`AttributeError`) when no model is attached, and otherwise is
exactly the attached model's retrieval applied to the instance's extras —
so its outcome, success or error, propagates unmodified. -/
theorem claim_C8 {α : Type} (inst : ComponentInstance α) :
    (inst.model = none →
      ComponentInstance.get_s_parameters inst = Except.error SimError.attributeError)
    ∧ ∀ m : ModelObj α, inst.model = some m →
        ComponentInstance.get_s_parameters inst
          = ModelObj.call_get_s_parameters m inst.extras := by
  constructor
  · intro h
    simp only [ComponentInstance.get_s_parameters, h]
  · intro m h
    simp only [ComponentInstance.get_s_parameters, h]

/-- C8 witness: an instance with no model fails with the null-reference
error, and an instance holding `mA` delegates to `mA`'s retrieval on its
extras. -/
theorem claim_C8_witness :
    ComponentInstance.get_s_parameters
        (ComponentInstance.init (none : Option (ModelObj Nat)) none 0 0 none)
      = Except.error SimError.attributeError
    ∧ ComponentInstance.get_s_parameters
        (ComponentInstance.init (some mA) none 1 2 (some [("length", 5)]))
      = ModelObj.call_get_s_parameters mA
          (ComponentInstance.init (some mA) none 1 2 (some [("length", 5)])).extras :=
  ⟨(claim_C8 (ComponentInstance.init (none : Option (ModelObj Nat)) none 0 0 none)).1 rfl,
   (claim_C8 (ComponentInstance.init (some mA) none 1 2 (some [("length", 5)]))).2 mA rfl⟩

/-- C9 evidence (code bug): the models registered under "a" and "b" carry
different s-parameter payloads and different construction names, yet
`__eq__` reports them equal: both `component_type` reads go through the
shared descriptor and return the same (last-assigned) name, so the name
comparison in `__eq__` is vacuous and equality degenerates to comparing
`cachable` alone. -/
theorem claim_C9_codebug :
    dictGet stAB.models "a" = some mA
    ∧ dictGet stAB.models "b" = some mB
    ∧ mA.s_parameters ≠ mB.s_parameters
    ∧ ComponentModel.eq stAB mA mB = true
    ∧ ("a" : String) ≠ "b" :=
  ⟨rfl, rfl, by decide, rfl, by decide⟩

/-- C10: a model constructed with `cachable=false` and a NON-null
s-parameter argument silently discards it — the stored `s_parameters`
attribute is absent (`none`) — and retrieval still fails with
`NotImplementedError` rather than returning the supplied pair. -/
theorem claim_C10 {α : Type} (st : CoreState α) (name : String) (sp : α)
    (kwargs : Extras) (h : name ∉ st.names) :
    (ComponentModel.init st name (some sp) false).2
      = Except.ok { s_parameters := none, cachable := false, getOverride := none }
    ∧ ModelObj.s_parameters
        ({ s_parameters := none, cachable := false, getOverride := none } : ModelObj α) = none
    ∧ ModelObj.call_get_s_parameters
        ({ s_parameters := none, cachable := false, getOverride := none } : ModelObj α) kwargs
      ≠ Except.ok sp
    ∧ ModelObj.call_get_s_parameters
        ({ s_parameters := none, cachable := false, getOverride := none } : ModelObj α) kwargs
      = Except.error SimError.notImplementedError := by
  have hset : UniqueModelName.set st.names name
      = Except.ok (name :: st.names, some name) := by
    unfold UniqueModelName.set; rw [if_neg h]
  refine ⟨?_, rfl, by simp [ModelObj.call_get_s_parameters, ComponentModel.get_s_parameters], rfl⟩
  simp only [ComponentModel.init, hset, Bool.false_eq_true, if_false]

/-- C10 witness: non-cachable model "dc" constructed WITH payload 9; the
payload is not stored and retrieval raises `NotImplementedError` instead of
returning 9. -/
theorem claim_C10_witness :
    (ComponentModel.init (initState Nat) "dc" (some 9) false).2
      = Except.ok { s_parameters := none, cachable := false, getOverride := none }
    ∧ ModelObj.s_parameters
        ({ s_parameters := none, cachable := false, getOverride := none } : ModelObj Nat) = none
    ∧ ModelObj.call_get_s_parameters
        ({ s_parameters := none, cachable := false, getOverride := none } : ModelObj Nat) []
      ≠ Except.ok 9
    ∧ ModelObj.call_get_s_parameters
        ({ s_parameters := none, cachable := false, getOverride := none } : ModelObj Nat) []
      = Except.error SimError.notImplementedError :=
  claim_C10 (initState Nat) "dc" 9 [] (by decide)
